import Mathlib

/-!
Formal model of the zacalendar speech-to-calendar backend (`main.py`).

The file shallowly embeds the program's logic in Lean: the color resolver
`get_nearest_color_id`, the datetime handling (`datetime.fromisoformat`,
`pytz` localization to America/New_York, `isoformat`), the event builder
`add_event`, the extraction-response handling of `call_gpt`, and the
`process_audio` request pipeline.  External collaborators (speech
recognizer, LLM, OAuth token endpoint, calendar API) are modelled as
inputs: their observable results are parameters of the pipeline, and the
calls the pipeline makes to them are recorded in an ordered trace.
-/

set_option maxHeartbeats 1000000

/-- JSON values as produced by Python's `json.loads`. -/
inductive JsonV where
  | null : JsonV
  | bool : Bool → JsonV
  | num : Int → JsonV
  | str : String → JsonV
  | arr : List JsonV → JsonV
  | obj : List (String × JsonV) → JsonV
deriving Repr

/-- Double-quote character. -/
def quoteChar : Char := Char.ofNat 34

/-- Backslash character. -/
def backslashChar : Char := Char.ofNat 92

/-- Opening curly brace character. -/
def lbraceChar : Char := Char.ofNat 123

/-- Closing curly brace character. -/
def rbraceChar : Char := Char.ofNat 125

/-- Backquote character, the first character of a markdown code fence. -/
def backquoteChar : Char := Char.ofNat 96

/-- JSON whitespace: space, tab, newline, carriage return. -/
def isJsonWs (c : Char) : Bool :=
  c = ' ' || c = Char.ofNat 9 || c = Char.ofNat 10 || c = Char.ofNat 13

/-- Drop leading JSON whitespace. -/
def skipWs : List Char → List Char
  | [] => []
  | c :: cs => if isJsonWs c then skipWs cs else c :: cs

/-- Decimal digit test. -/
def isJsonDigit (c : Char) : Bool := '0' ≤ c && c ≤ '9'

/-- Value of a simple JSON string escape (subset accepted by `json.loads`). -/
def escChar (c : Char) : Option Char :=
  if c = quoteChar then some quoteChar
  else if c = backslashChar then some backslashChar
  else if c = '/' then some '/'
  else if c = 'b' then some (Char.ofNat 8)
  else if c = 'f' then some (Char.ofNat 12)
  else if c = 'n' then some (Char.ofNat 10)
  else if c = 'r' then some (Char.ofNat 13)
  else if c = 't' then some (Char.ofNat 9)
  else none

/-- Parse the body of a JSON string after the opening quote.  Raw control
characters are rejected, as by `json.loads` in its default strict mode. -/
def parseStringBody : List Char → Option (List Char × List Char)
  | [] => none
  | c :: cs =>
    if c = quoteChar then some ([], cs)
    else if c = backslashChar then
      match cs with
      | [] => none
      | e :: cs2 =>
        match escChar e with
        | none => none
        | some ec =>
          match parseStringBody cs2 with
          | none => none
          | some (s, r) => some (ec :: s, r)
    else if c.toNat < 32 then none
    else
      match parseStringBody cs with
      | none => none
      | some (s, r) => some (c :: s, r)

/-- Take the longest prefix of decimal digits. -/
def takeDigits : List Char → List Char × List Char
  | [] => ([], [])
  | c :: cs =>
    if isJsonDigit c then
      match takeDigits cs with
      | (ds, r) => (c :: ds, r)
    else ([], c :: cs)

/-- Numeric value of a digit list, most significant first. -/
def digitsValAux : Nat → List Char → Nat
  | acc, [] => acc
  | acc, c :: cs => digitsValAux (10 * acc + (c.toNat - 48)) cs

/-- Parse a JSON integer after an optional leading minus sign.  A leading
zero ends the number at once (the JSON grammar forbids `01`); fractions and
exponents are not modelled, which only narrows the set of accepted inputs
relative to `json.loads` (the service's extraction responses are objects of
strings and nulls). -/
def parseNumberTail (neg : Bool) (cs : List Char) : Option (JsonV × List Char) :=
  match cs with
  | [] => none
  | c :: r =>
    if c = '0' then some (JsonV.num 0, r)
    else if isJsonDigit c then
      match takeDigits (c :: r) with
      | (ds, rest) =>
        some (JsonV.num ((if neg then -1 else 1) * (digitsValAux 0 ds : Int)), rest)
    else none

mutual

/-- Fueled recursive-descent parser for a JSON value; models `json.loads`
on the subset of JSON the service exchanges.  Everything it accepts,
`json.loads` accepts with the same value. -/
def parseValue : Nat → List Char → Option (JsonV × List Char)
  | 0, _ => none
  | _ + 1, [] => none
  | fuel + 1, c :: cs =>
    if c = lbraceChar then
      match skipWs cs with
      | [] => none
      | c2 :: cs2 =>
        if c2 = rbraceChar then some (JsonV.obj [], cs2)
        else
          match parseMembers fuel (c2 :: cs2) [] with
          | none => none
          | some (fields, r) => some (JsonV.obj fields, r)
    else if c = '[' then
      match skipWs cs with
      | [] => none
      | c2 :: cs2 =>
        if c2 = ']' then some (JsonV.arr [], cs2)
        else
          match parseElems fuel (c2 :: cs2) [] with
          | none => none
          | some (xs, r) => some (JsonV.arr xs, r)
    else if c = quoteChar then
      match parseStringBody cs with
      | none => none
      | some (s, r) => some (JsonV.str (String.mk s), r)
    else if c = '-' then parseNumberTail true cs
    else if isJsonDigit c then parseNumberTail false (c :: cs)
    else if c = 't' then
      match cs with
      | 'r' :: 'u' :: 'e' :: r => some (JsonV.bool true, r)
      | _ => none
    else if c = 'f' then
      match cs with
      | 'a' :: 'l' :: 's' :: 'e' :: r => some (JsonV.bool false, r)
      | _ => none
    else if c = 'n' then
      match cs with
      | 'u' :: 'l' :: 'l' :: r => some (JsonV.null, r)
      | _ => none
    else none

/-- Parse the members of a JSON object, positioned at a key's opening
quote. -/
def parseMembers : Nat → List Char → List (String × JsonV) →
    Option (List (String × JsonV) × List Char)
  | 0, _, _ => none
  | fuel + 1, cs, acc =>
    match cs with
    | [] => none
    | c :: cs1 =>
      if c = quoteChar then
        match parseStringBody cs1 with
        | none => none
        | some (k, r1) =>
          match skipWs r1 with
          | ':' :: r2 =>
            match parseValue fuel (skipWs r2) with
            | none => none
            | some (v, r3) =>
              match skipWs r3 with
              | [] => none
              | c4 :: r4 =>
                if c4 = ',' then
                  parseMembers fuel (skipWs r4) (acc ++ [(String.mk k, v)])
                else if c4 = rbraceChar then some (acc ++ [(String.mk k, v)], r4)
                else none
          | _ => none
      else none

/-- Parse the elements of a JSON array, positioned at the first element. -/
def parseElems : Nat → List Char → List JsonV → Option (List JsonV × List Char)
  | 0, _, _ => none
  | fuel + 1, cs, acc =>
    match parseValue fuel cs with
    | none => none
    | some (v, r) =>
      match skipWs r with
      | [] => none
      | c2 :: r2 =>
        if c2 = ',' then parseElems fuel (skipWs r2) (acc ++ [v])
        else if c2 = ']' then some (acc ++ [v], r2)
        else none

end

/-- Model of `json.loads`: parse one JSON value, allow surrounding
whitespace, reject trailing data. -/
def jsonLoads (s : String) : Option JsonV :=
  match parseValue (2 * s.length + 2) (skipWs s.toList) with
  | none => none
  | some (v, rest) =>
    match skipWs rest with
    | [] => some v
    | _ => none

/-- Model of Python's `dict.get` on an object built by `json.loads`:
the last occurrence of a duplicated key wins, a missing key gives `None`. -/
def jget (fields : List (String × JsonV)) (key : String) : JsonV :=
  match fields.reverse.find? (fun kv => kv.1 == key) with
  | some kv => kv.2
  | none => JsonV.null

/-- Python truthiness of a `json.loads` value: `None`, `False`, `0`, `""`,
`[]` and an empty object are falsy. -/
def jfalsy : JsonV → Bool
  | JsonV.null => true
  | JsonV.bool b => !b
  | JsonV.num n => n == 0
  | JsonV.str s => s == ""
  | JsonV.arr xs => xs.isEmpty
  | JsonV.obj fs => fs.isEmpty

/-- Python's `a or b` on `json.loads` values. -/
def pyOrJson (a b : JsonV) : JsonV := if jfalsy a then b else a

/-- The fixed 11-slot calendar color palette, in the source's definition
order (`COLOR_HEX_MAP` in `main.py`; Python dicts iterate in insertion
order). -/
def COLOR_HEX_MAP : List (String × String) :=
  [("1", "#a4bdfc"), ("2", "#7ae7bf"), ("3", "#dbadff"), ("4", "#ff887c"),
   ("5", "#fbd75b"), ("6", "#ffb878"), ("7", "#46d6db"), ("8", "#e1e1e1"),
   ("9", "#5484ed"), ("10", "#51b749"), ("11", "#dc2127")]

/-- Named-color table (`CSS_COLOR_NAMES` in `main.py`); present in the data
model but not consumed by the pipeline logic under verification. -/
def CSS_COLOR_NAMES : List (String × String) :=
  [("red", "#ff0000"), ("lightred", "#ff6666"), ("darkred", "#8b0000"),
   ("blue", "#0000ff"), ("lightblue", "#add8e6"), ("darkblue", "#00008b"),
   ("green", "#008000"), ("lightgreen", "#90ee90"), ("darkgreen", "#006400"),
   ("yellow", "#ffff00"), ("lightyellow", "#ffffe0"), ("darkyellow", "#bdb76b"),
   ("orange", "#ffa500"), ("lightorange", "#ffb347"), ("darkorange", "#ff8c00"),
   ("purple", "#800080"), ("lightpurple", "#dab5d3"), ("darkpurple", "#4b0082"),
   ("pink", "#ffc0cb"), ("lightpink", "#ffb6c1"), ("darkpink", "#ff69b4"),
   ("gray", "#808080"), ("lightgray", "#d3d3d3"), ("darkgray", "#a9a9a9"),
   ("black", "#000000"), ("white", "#ffffff"), ("teal", "#008080")]

/-- Value of one hexadecimal digit, as accepted by `int(_, 16)` on a clean
hex string. -/
def hexDigitVal (c : Char) : Option Nat :=
  if '0' ≤ c ∧ c ≤ '9' then some (c.toNat - 48)
  else if 'a' ≤ c ∧ c ≤ 'f' then some (c.toNat - 97 + 10)
  else if 'A' ≤ c ∧ c ≤ 'F' then some (c.toNat - 65 + 10)
  else none

/-- Value of a two-hex-digit byte. -/
def hexPairVal (c1 c2 : Char) : Option Nat := do
  let h ← hexDigitVal c1
  let l ← hexDigitVal c2
  pure (16 * h + l)

/-- Model of the inner `hex_to_rgb` of `get_nearest_color_id`: strip all
leading `#` (Python's `lstrip("#")`), then read bytes from positions 0-1,
2-3 and 4-5; characters past position 5 are ignored, exactly as the slices
`hex_color[i:i+2]` for `i in (0, 2, 4)` ignore them.  Failure (`none`)
models the `ValueError` that `int(_, 16)` raises on a malformed slice. -/
def hex_to_rgb (hex_color : String) : Option (Nat × Nat × Nat) :=
  match hex_color.toList.dropWhile (fun c => c = '#') with
  | c1 :: c2 :: c3 :: c4 :: c5 :: c6 :: _ => do
    let r ← hexPairVal c1 c2
    let g ← hexPairVal c3 c4
    let b ← hexPairVal c5 c6
    pure (r, g, b)
  | _ => none

/-- Squared Euclidean distance between two RGB triples.  The source
compares `sqrt` values with `<`; over integer inputs bounded by 3 * 255^2
the IEEE-754 square root is injective and strictly monotone on the exact
sums of squares, so comparing squared distances decides the same
comparisons the floating-point code does. -/
def dist2 (a b : Nat × Nat × Nat) : Int :=
  let dr : Int := (a.1 : Int) - (b.1 : Int)
  let dg : Int := (a.2.1 : Int) - (b.2.1 : Int)
  let db : Int := (a.2.2 : Int) - (b.2.2 : Int)
  dr * dr + dg * dg + db * db

/-- The scanning loop of `get_nearest_color_id`: state is the running
`(min_dist, best_id)`, with `none` standing for the initial
`float("inf")`; an entry replaces the state exactly when its distance is
strictly below the running minimum. -/
def nearestLoop (target : Nat × Nat × Nat) :
    List (String × String) → Option Int × String → Option (Option Int × String)
  | [], acc => some acc
  | (cid, hex_val) :: rest, (minDist, bestId) =>
    match hex_to_rgb hex_val with
    | none => none
    | some c =>
      let d := dist2 target c
      let improves : Bool :=
        match minDist with
        | none => true
        | some m => decide (d < m)
      if improves then nearestLoop target rest (some d, cid)
      else nearestLoop target rest (minDist, bestId)

/-- Model of `get_nearest_color_id` in `main.py`. -/
def get_nearest_color_id (hex_input : String) : Option String :=
  match hex_to_rgb hex_input with
  | none => none
  | some target =>
    match nearestLoop target COLOR_HEX_MAP (none, "1") with
    | none => none
    | some acc => some acc.2

/-- Distance from `target` to the palette entry at position `j`. -/
def entryDist (target : Nat × Nat × Nat) (entries : List (String × String))
    (j : Nat) : Int :=
  dist2 target ((hex_to_rgb (entries.getD j ("", "")).2).getD (0, 0, 0))

/-- A Python `datetime.datetime` restricted to second precision, as this
service uses it.  `tzoffsetMinutes` models `tzinfo`: `none` is a naive
datetime, `some off` a timezone-aware one with a fixed UTC offset in
minutes. -/
structure PyDatetime where
  year : Nat
  month : Nat
  day : Nat
  hour : Nat
  minute : Nat
  second : Nat
  tzoffsetMinutes : Option Int
deriving Repr, DecidableEq

/-- Value of a decimal digit character. -/
def digitVal (c : Char) : Option Nat :=
  if isJsonDigit c then some (c.toNat - 48) else none

/-- Parse exactly two decimal digits. -/
def parse2 : List Char → Option (Nat × List Char)
  | c1 :: c2 :: r =>
    match digitVal c1, digitVal c2 with
    | some a, some b => some (10 * a + b, r)
    | _, _ => none
  | _ => none

/-- Parse exactly four decimal digits. -/
def parse4 : List Char → Option (Nat × List Char)
  | c1 :: c2 :: c3 :: c4 :: r =>
    match digitVal c1, digitVal c2, digitVal c3, digitVal c4 with
    | some a, some b, some c, some d => some (1000 * a + 100 * b + 10 * c + d, r)
    | _, _, _, _ => none
  | _ => none

/-- Gregorian leap-year rule. -/
def isLeapYear (y : Nat) : Bool := (y % 4 == 0 && y % 100 != 0) || y % 400 == 0

/-- Number of days in a month. -/
def daysInMonth (y m : Nat) : Nat :=
  if m = 2 then (if isLeapYear y then 29 else 28)
  else if m = 4 || m = 6 || m = 9 || m = 11 then 30
  else 31

/-- Parse an optional trailing UTC offset `±HH:MM`; `some none` means the
string ended with no offset (a naive datetime). -/
def parseTzTail (cs : List Char) : Option (Option Int) :=
  match cs with
  | [] => some none
  | sign :: r =>
    if sign = '+' || sign = '-' then
      match parse2 r with
      | none => none
      | some (oh, r1) =>
        match r1 with
        | ':' :: r2 =>
          match parse2 r2 with
          | none => none
          | some (om, r3) =>
            if r3.isEmpty ∧ oh ≤ 23 ∧ om ≤ 59 then
              some (some ((if sign = '-' then -1 else 1) * ((oh : Int) * 60 + om)))
            else none
        | _ => none
    else none

/-- Parse the time-of-day part `HH:MM[:SS]` followed by an optional UTC
offset. -/
def parseTimeTail (cs : List Char) : Option (Nat × Nat × Nat × Option Int) :=
  match parse2 cs with
  | none => none
  | some (hh, r1) =>
    match r1 with
    | ':' :: r2 =>
      match parse2 r2 with
      | none => none
      | some (mm, r3) =>
        match r3 with
        | ':' :: r4 =>
          match parse2 r4 with
          | none => none
          | some (ss, r5) =>
            match parseTzTail r5 with
            | none => none
            | some tz =>
              if hh ≤ 23 ∧ mm ≤ 59 ∧ ss ≤ 59 then some (hh, mm, ss, tz) else none
        | _ =>
          match parseTzTail r3 with
          | none => none
          | some tz =>
            if hh ≤ 23 ∧ mm ≤ 59 then some (hh, mm, 0, tz) else none
    | _ => none

/-- Model of `datetime.fromisoformat` on the grammar
`YYYY-MM-DD[<sep>HH:MM[:SS][±HH:MM]]` with any single separator
character.  Everything this model accepts, the Python function accepts
with the same field values; fractional seconds and other extensions only
widen what Python accepts. -/
def fromisoformat (s : String) : Option PyDatetime :=
  match parse4 s.toList with
  | none => none
  | some (y, r1) =>
    match r1 with
    | '-' :: r2 =>
      match parse2 r2 with
      | none => none
      | some (mo, r3) =>
        match r3 with
        | '-' :: r4 =>
          match parse2 r4 with
          | none => none
          | some (d, r5) =>
            if 1 ≤ y ∧ 1 ≤ mo ∧ mo ≤ 12 ∧ 1 ≤ d ∧ d ≤ daysInMonth y mo then
              match r5 with
              | [] => some ⟨y, mo, d, 0, 0, 0, none⟩
              | _ :: r6 =>
                match parseTimeTail r6 with
                | none => none
                | some (hh, mm, ss, tz) => some ⟨y, mo, d, hh, mm, ss, tz⟩
            else none
        | _ => none
    | _ => none

/-- Sakamoto day-of-week table. -/
def sakamotoT : List Nat := [0, 3, 2, 5, 0, 3, 5, 1, 4, 6, 2, 4]

/-- Day of week of a Gregorian date, 0 = Sunday. -/
def dayOfWeek (y m d : Nat) : Nat :=
  let y2 := if m < 3 then y - 1 else y
  (y2 + y2 / 4 - y2 / 100 + y2 / 400 + sakamotoT.getD (m - 1) 0 + d) % 7

/-- Day of month of the n-th Sunday of a month. -/
def nthSundayOfMonth (y m n : Nat) : Nat :=
  let w := dayOfWeek y m 1
  1 + ((7 - w) % 7) + 7 * (n - 1)

/-- Whether a wall-clock instant falls in US daylight saving time under
the post-2007 rule for America/New_York (second Sunday of March 2:00 to
first Sunday of November 2:00), resolving the ambiguous and the skipped
hour the way `pytz.localize` does with its default `is_dst=False`. -/
def isDST_newYork (dt : PyDatetime) : Bool :=
  let ssm := nthSundayOfMonth dt.year 3 2
  let fsn := nthSundayOfMonth dt.year 11 1
  (decide (3 < dt.month) ||
    (dt.month == 3 && (decide (ssm < dt.day) || (dt.day == ssm && decide (3 ≤ dt.hour))))) &&
  (decide (dt.month < 11) ||
    (dt.month == 11 && (decide (dt.day < fsn) || (dt.day == fsn && decide (dt.hour < 1)))))

/-- UTC offset in minutes that `pytz.timezone("America/New_York")`
attaches to a naive wall-clock instant (post-2007 tzdata rules): -240 in
daylight saving time, -300 in standard time. -/
def nyOffsetMinutes (dt : PyDatetime) : Int :=
  if isDST_newYork dt then -240 else -300

/-- Model of `EST.localize` (`pytz`): attach the America/New_York offset
to a naive datetime; raise `ValueError` on an already-aware one. -/
def EST_localize (dt : PyDatetime) : Except String PyDatetime :=
  if dt.tzoffsetMinutes.isSome then
    Except.error "Not naive datetime (tzinfo is already set)"
  else
    Except.ok { dt with tzoffsetMinutes := some (nyOffsetMinutes dt) }

/-- Two-digit zero-padded decimal. -/
def pad2 (n : Nat) : String := if n < 10 then "0" ++ toString n else toString n

/-- Four-digit zero-padded decimal. -/
def pad4 (n : Nat) : String :=
  if n < 10 then "000" ++ toString n
  else if n < 100 then "00" ++ toString n
  else if n < 1000 then "0" ++ toString n
  else toString n

/-- Naive part of the ISO-8601 rendering of a datetime. -/
def isoNaive (dt : PyDatetime) : String :=
  pad4 dt.year ++ "-" ++ pad2 dt.month ++ "-" ++ pad2 dt.day ++ "T" ++
    pad2 dt.hour ++ ":" ++ pad2 dt.minute ++ ":" ++ pad2 dt.second

/-- ISO-8601 rendering `±HH:MM` of a UTC offset in minutes. -/
def offsetToString (mins : Int) : String :=
  (if mins < 0 then "-" else "+") ++ pad2 (mins.natAbs / 60) ++ ":" ++ pad2 (mins.natAbs % 60)

/-- Model of `datetime.isoformat`: the naive rendering, with the explicit
offset designator appended when the datetime is timezone-aware. -/
def pyIsoformat (dt : PyDatetime) : String :=
  match dt.tzoffsetMinutes with
  | none => isoNaive dt
  | some off => isoNaive dt ++ offsetToString off

/-- One `dateTime`/`timeZone` pair of the calendar event payload. -/
structure EventTime where
  dateTime : String
  timeZone : String
deriving Repr, DecidableEq

/-- The calendar event payload `add_event` posts to the calendar API. -/
structure Event where
  summary : JsonV
  start : EventTime
  «end» : EventTime
  colorId : String
deriving Repr

/-- Model of `add_event` in `main.py` up to the HTTP POST: localize the
start datetime to America/New_York, render it, default and resolve the
color, and build the payload.  `Except.error` models the exceptions the
Python code can raise (`EST.localize` on an aware datetime, `lstrip` on a
non-string color, `int(_, 16)` on malformed hex).  The POST itself and its
response are external and are modelled at the call site. -/
def add_event (access_token : String) (summary : JsonV) (color_hex : JsonV)
    (start_datetime_est : PyDatetime) : Except String Event :=
  match EST_localize start_datetime_est with
  | Except.error e => Except.error e
  | Except.ok localized =>
    let iso_dt := pyIsoformat localized
    match pyOrJson color_hex (JsonV.str "#008080") with
    | JsonV.str hexStr =>
      match get_nearest_color_id hexStr with
      | some color_id =>
        let _ := access_token
        Except.ok { summary := summary,
                    start := { dateTime := iso_dt, timeZone := "America/New_York" },
                    «end» := { dateTime := iso_dt, timeZone := "America/New_York" },
                    colorId := color_id }
      | none => Except.error "invalid literal for int() with base 16"
    | _ => Except.error "TypeError: lstrip"

/-- Whether the content starts with a markdown code fence, as tested by
`content.startswith("```")`. -/
def startsWithFence (content : String) : Bool :=
  match content.toList with
  | a :: b :: c :: _ => a = backquoteChar && b = backquoteChar && c = backquoteChar
  | _ => false

/-- Newline character. -/
def newlineChar : Char := Char.ofNat 10

/-- Split a character list at newlines, as `content.split("\n")` does:
adjacent and trailing newlines yield empty lines. -/
def splitLines : List Char → List (List Char)
  | [] => [[]]
  | c :: cs =>
    match splitLines cs with
    | [] => [[]]
    | line :: rest =>
      if c = newlineChar then [] :: line :: rest else (c :: line) :: rest

/-- Join lines with newlines, as `"\n".join(...)` does. -/
def joinLines : List (List Char) → List Char
  | [] => []
  | [l] => l
  | l :: rest => l ++ newlineChar :: joinLines rest

/-- The markdown-code-fence stripping computed in `call_gpt` (lines
146-147 of `main.py`): drop the first and last line when the content
starts with a fence (`"\n".join(content.split("\n")[1:-1])`). -/
def strip_fences (content : String) : String :=
  if startsWithFence content then
    String.mk (joinLines ((splitLines content.toList).drop 1).dropLast)
  else content

/-- The parsing behaviour of `call_gpt` (lines 144-150 of `main.py`): the
stripped text is computed into a local variable, but `json.loads` is
applied to the original, unmodified message content
`response.choices[0].message.content`.  `none` models the raised
`json.JSONDecodeError`. -/
def call_gpt_parse (content : String) : Option JsonV :=
  let _stripped := strip_fences content
  jsonLoads content

/-- Observable result of `recognizer.recognize_google`. -/
inductive TranscribeResult where
  | ok : String → TranscribeResult
  | unknownValue : TranscribeResult
  | requestError : TranscribeResult
deriving Repr, DecidableEq

/-- Results of the external collaborators for one request: the speech
recognizer's outcome, the raw LLM message content, the token endpoint's
result, and the calendar API's create-event response. -/
structure PipelineEnv where
  transcribeR : TranscribeResult
  gptContent : String
  tokenR : Except String String
  createR : Except String JsonV
deriving Repr

/-- Structured JSON bodies the endpoint returns with HTTP 200. -/
inductive RespBody where
  | softError : String → String → RespBody
  | success : String → JsonV → JsonV → RespBody
deriving Repr

/-- Terminal outcome of one request: an `HTTPException` with a status
code, a 200-level JSON body, or an unhandled exception. -/
inductive Outcome where
  | httpError : Nat → String → Outcome
  | ok : RespBody → Outcome
  | raised : String → Outcome
deriving Repr

/-- Collaborator calls, recorded in the order the pipeline makes them;
the create-event call carries the payload sent. -/
inductive Collab where
  | transcribe : Collab
  | gpt : Collab
  | token : Collab
  | createEvent : Event → Collab
deriving Repr

/-- Media types the endpoint accepts, as listed in `main.py`. -/
def ALLOWED_CONTENT_TYPES : List String :=
  ["audio/wav", "audio/x-wav", "audio/flac", "audio/mpeg", "audio/mp3"]

/-- Model of the `process_audio` route of `main.py`.  Configuration
(`AUTH_PASSWORD`) and the request (`authorization` header, declared
`content_type`) are parameters; collaborator results come from `env`; the
returned list is the trace of collaborator calls made.  The audio
transcoding of lines 167-174 changes no observable state in this model
(the recognizer's outcome is `env.transcribeR` either way). -/
def process_audio (AUTH_PASSWORD authorization content_type : String)
    (env : PipelineEnv) : Outcome × List Collab :=
  if authorization ≠ AUTH_PASSWORD then (Outcome.httpError 401 "Unauthorized", [])
  else if ¬ (content_type ∈ ALLOWED_CONTENT_TYPES) then
    (Outcome.httpError 400 "Unsupported file type", [])
  else
    match PipelineEnv.transcribeR env with
    | TranscribeResult.unknownValue =>
      (Outcome.ok (RespBody.softError "" "Could not understand audio"), [Collab.transcribe])
    | TranscribeResult.requestError =>
      (Outcome.ok (RespBody.softError "" "Speech Recognition service error"), [Collab.transcribe])
    | TranscribeResult.ok text =>
      match call_gpt_parse (PipelineEnv.gptContent env) with
      | none => (Outcome.raised "json.JSONDecodeError", [Collab.transcribe, Collab.gpt])
      | some gpt_data =>
        match gpt_data with
        | JsonV.obj fields =>
          if jfalsy (jget fields "datetime") then
            (Outcome.ok (RespBody.softError text "Invalid or past datetime in input"),
              [Collab.transcribe, Collab.gpt])
          else
            match PipelineEnv.tokenR env with
            | Except.error e => (Outcome.raised e, [Collab.transcribe, Collab.gpt, Collab.token])
            | Except.ok access_token =>
              let summary := pyOrJson (jget fields "title") (JsonV.str "No Title")
              let color_hex := pyOrJson (jget fields "color") (JsonV.str "#008080")
              match jget fields "datetime" with
              | JsonV.str dtStr =>
                match fromisoformat dtStr with
                | none =>
                  (Outcome.raised "Invalid isoformat string",
                    [Collab.transcribe, Collab.gpt, Collab.token])
                | some start_dt =>
                  match add_event access_token summary color_hex start_dt with
                  | Except.error e =>
                    (Outcome.raised e, [Collab.transcribe, Collab.gpt, Collab.token])
                  | Except.ok payload =>
                    match PipelineEnv.createR env with
                    | Except.error e =>
                      (Outcome.raised e,
                        [Collab.transcribe, Collab.gpt, Collab.token, Collab.createEvent payload])
                    | Except.ok created =>
                      (Outcome.ok (RespBody.success text gpt_data created),
                        [Collab.transcribe, Collab.gpt, Collab.token, Collab.createEvent payload])
              | _ =>
                (Outcome.raised "fromisoformat: argument must be str",
                  [Collab.transcribe, Collab.gpt, Collab.token])
        | _ => (Outcome.raised "AttributeError: get", [Collab.transcribe, Collab.gpt])

/-- Concrete collaborator results for a request whose extracted datetime
`2024-01-01T14:59:59` is in the past relative to the reference now
`2024-01-01T15:00:00` of the spec's example.  The pipeline never consults
a clock when validating the extracted datetime (`main.py` line 188 checks
only truthiness), so no `now` appears in the model at all. -/
def envSuccess : PipelineEnv :=
  { transcribeR := TranscribeResult.ok "meeting at three",
    gptContent := "\x7b\"title\": \"Meeting\", \"color\": null, \"datetime\": \"2024-01-01T14:59:59\"\x7d",
    tokenR := Except.ok "tok",
    createR := Except.ok (JsonV.obj []) }

/-- The fields `json.loads` extracts from `envSuccess.gptContent`. -/
def gptFieldsSuccess : List (String × JsonV) :=
  [("title", JsonV.str "Meeting"), ("color", JsonV.null),
   ("datetime", JsonV.str "2024-01-01T14:59:59")]

/-- The payload the pipeline posts for `envSuccess`. -/
def payloadSuccess : Event :=
  { summary := JsonV.str "Meeting",
    start := { dateTime := "2024-01-01T14:59:59-05:00", timeZone := "America/New_York" },
    «end» := { dateTime := "2024-01-01T14:59:59-05:00", timeZone := "America/New_York" },
    colorId := "10" }

/-- Concrete collaborator results for a request whose extracted datetime
field is null. -/
def envNullDatetime : PipelineEnv :=
  { transcribeR := TranscribeResult.ok "hello",
    gptContent := "\x7b\"title\": \"X\", \"color\": \"#ff0000\", \"datetime\": null\x7d",
    tokenR := Except.ok "tok",
    createR := Except.ok (JsonV.obj []) }

/-- Concrete environment whose recognizer reports unrecognized speech. -/
def envUnknownValue : PipelineEnv :=
  { transcribeR := TranscribeResult.unknownValue,
    gptContent := "", tokenR := Except.ok "tok", createR := Except.ok (JsonV.obj []) }

/-- Concrete environment whose recognizer reports a service error. -/
def envRequestError : PipelineEnv :=
  { transcribeR := TranscribeResult.requestError,
    gptContent := "", tokenR := Except.ok "tok", createR := Except.ok (JsonV.obj []) }

/-- A fenced extractor response: valid JSON wrapped in markdown fences. -/
def fencedContent : String := "```json\n\x7b\"title\": null\x7d\n```"

/-- Concrete collaborator results whose extracted datetime carries an
embedded UTC offset. -/
def envAwareDatetime : PipelineEnv :=
  { transcribeR := TranscribeResult.ok "hello",
    gptContent := "\x7b\"title\": null, \"color\": null, \"datetime\": \"2024-01-01T14:59:59+00:00\"\x7d",
    tokenR := Except.ok "tok",
    createR := Except.ok (JsonV.obj []) }

theorem entryDist_cons_succ (target : Nat × Nat × Nat) (e : String × String)
    (rest : List (String × String)) (j : Nat) :
    entryDist target (e :: rest) (j + 1) = entryDist target rest j := by
  simp [entryDist]

theorem nearestLoop_some_spec (target : Nat × Nat × Nat) :
    ∀ (entries : List (String × String)) (m : Int) (best : String),
    (∀ e ∈ entries, (hex_to_rgb e.2).isSome = true) →
    ∃ m' best', nearestLoop target entries (some m, best) = some (some m', best') ∧
      m' ≤ m ∧
      (∀ j, j < entries.length → m' ≤ entryDist target entries j) ∧
      ((m' = m ∧ best' = best) ∨
        (∃ i, i < entries.length ∧ best' = (entries.getD i ("", "")).1 ∧
          m' = entryDist target entries i ∧ m' < m ∧
          ∀ j, j < i → m' < entryDist target entries j)) := by
  intro entries
  induction entries with
  | nil =>
    intro m best _
    refine ⟨m, best, rfl, le_refl m, ?_, Or.inl ⟨rfl, rfl⟩⟩
    intro j hj
    simp at hj
  | cons e rest ih =>
    intro m best hp
    obtain ⟨cid, hx⟩ := e
    have hchead : (hex_to_rgb hx).isSome = true := hp (cid, hx) (List.mem_cons_self _ _)
    obtain ⟨c, hc⟩ := Option.isSome_iff_exists.mp hchead
    have hprest : ∀ e ∈ rest, (hex_to_rgb e.2).isSome = true :=
      fun e he => hp e (List.mem_cons_of_mem _ he)
    have hd0 : entryDist target ((cid, hx) :: rest) 0 = dist2 target c := by
      simp [entryDist, hc]
    by_cases hlt : dist2 target c < m
    · have hstep : nearestLoop target ((cid, hx) :: rest) (some m, best)
        = nearestLoop target rest (some (dist2 target c), cid) := by
        simp [nearestLoop, hc, hlt]
      obtain ⟨m', best', heq, hle, hmin, hcase⟩ := ih (dist2 target c) cid hprest
      refine ⟨m', best', hstep.trans heq, le_of_lt (lt_of_le_of_lt hle hlt), ?_, ?_⟩
      · intro j hj
        cases j with
        | zero => rw [hd0]; exact hle
        | succ k =>
          rw [entryDist_cons_succ]
          exact hmin k (by simpa using hj)
      · rcases hcase with ⟨hm', hb'⟩ | ⟨i, hi, hb, hdi, hlti, hearly⟩
        · refine Or.inr ⟨0, by simp, by simpa using hb', by rw [hd0, hm'], by rw [hm']; exact hlt, ?_⟩
          intro j hj; exact absurd hj (Nat.not_lt_zero j)
        · refine Or.inr ⟨i + 1, by simpa using hi, by simpa using hb, ?_, lt_trans hlti hlt, ?_⟩
          · rw [entryDist_cons_succ]; exact hdi
          · intro j hj
            cases j with
            | zero => rw [hd0]; exact hlti
            | succ k =>
              rw [entryDist_cons_succ]
              exact hearly k (Nat.lt_of_succ_lt_succ hj)
    · have hstep : nearestLoop target ((cid, hx) :: rest) (some m, best)
        = nearestLoop target rest (some m, best) := by
        simp [nearestLoop, hc, hlt]
      obtain ⟨m', best', heq, hle, hmin, hcase⟩ := ih m best hprest
      have hmd : m ≤ dist2 target c := le_of_not_lt hlt
      refine ⟨m', best', hstep.trans heq, hle, ?_, ?_⟩
      · intro j hj
        cases j with
        | zero => rw [hd0]; exact le_trans hle hmd
        | succ k =>
          rw [entryDist_cons_succ]
          exact hmin k (by simpa using hj)
      · rcases hcase with ⟨hm', hb'⟩ | ⟨i, hi, hb, hdi, hlti, hearly⟩
        · exact Or.inl ⟨hm', hb'⟩
        · refine Or.inr ⟨i + 1, by simpa using hi, by simpa using hb, ?_, hlti, ?_⟩
          · rw [entryDist_cons_succ]; exact hdi
          · intro j hj
            cases j with
            | zero => rw [hd0]; exact lt_of_lt_of_le hlti hmd
            | succ k =>
              rw [entryDist_cons_succ]
              exact hearly k (Nat.lt_of_succ_lt_succ hj)

theorem nearestLoop_init_spec (target : Nat × Nat × Nat)
    (entries : List (String × String)) (hne : entries ≠ [])
    (hp : ∀ e ∈ entries, (hex_to_rgb e.2).isSome = true) :
    ∃ m' best', nearestLoop target entries (none, "1") = some (some m', best') ∧
      ∃ i, i < entries.length ∧ best' = (entries.getD i ("", "")).1 ∧
        m' = entryDist target entries i ∧
        (∀ j, j < entries.length → m' ≤ entryDist target entries j) ∧
        (∀ j, j < i → m' < entryDist target entries j) := by
  match entries, hne with
  | (cid, hx) :: rest, _ =>
    have hchead : (hex_to_rgb hx).isSome = true := hp (cid, hx) (List.mem_cons_self _ _)
    obtain ⟨c, hc⟩ := Option.isSome_iff_exists.mp hchead
    have hprest : ∀ e ∈ rest, (hex_to_rgb e.2).isSome = true :=
      fun e he => hp e (List.mem_cons_of_mem _ he)
    have hd0 : entryDist target ((cid, hx) :: rest) 0 = dist2 target c := by
      simp [entryDist, hc]
    have hstep : nearestLoop target ((cid, hx) :: rest) (none, "1")
        = nearestLoop target rest (some (dist2 target c), cid) := by
      simp [nearestLoop, hc]
    obtain ⟨m', best', heq, hle, hmin, hcase⟩ := nearestLoop_some_spec target rest (dist2 target c) cid hprest
    refine ⟨m', best', hstep.trans heq, ?_⟩
    rcases hcase with ⟨hm', hb'⟩ | ⟨i, hi, hb, hdi, hlti, hearly⟩
    · refine ⟨0, by simp, by simpa using hb', by rw [hd0, hm'], ?_, ?_⟩
      · intro j hj
        cases j with
        | zero => rw [hd0, hm']
        | succ k =>
          rw [entryDist_cons_succ]
          exact hmin k (by simpa using hj)
      · intro j hj; exact absurd hj (Nat.not_lt_zero j)
    · refine ⟨i + 1, by simpa using hi, by simpa using hb, ?_, ?_, ?_⟩
      · rw [entryDist_cons_succ]; exact hdi
      · intro j hj
        cases j with
        | zero => rw [hd0]; exact le_of_lt hlti
        | succ k =>
          rw [entryDist_cons_succ]
          exact hmin k (by simpa using hj)
      · intro j hj
        cases j with
        | zero => rw [hd0]; exact hlti
        | succ k =>
          rw [entryDist_cons_succ]
          exact hearly k (Nat.lt_of_succ_lt_succ hj)

/-- C2: for every RGB input the resolver accepts (every 6-hex-digit input,
leading hash optional), the result is the identifier of the palette entry
at minimum Euclidean RGB distance, ties resolved to the first-encountered
entry in palette-definition order; in particular the result is always one
of the 11 slot identifiers.  Determinism is immediate: the embedding is a
pure function of its input.  Distances are compared as exact squared
distances, which decides exactly the comparisons the floating-point
`sqrt` code performs (see `dist2`). -/
theorem get_nearest_color_id_first_min (hex_input : String) (target : Nat × Nat × Nat)
    (h : hex_to_rgb hex_input = some target) :
    ∃ res, get_nearest_color_id hex_input = some res ∧
      ∃ i, i < COLOR_HEX_MAP.length ∧ res = (COLOR_HEX_MAP.getD i ("", "")).1 ∧
        (∀ j, j < COLOR_HEX_MAP.length →
          entryDist target COLOR_HEX_MAP i ≤ entryDist target COLOR_HEX_MAP j) ∧
        (∀ j, j < i → entryDist target COLOR_HEX_MAP i < entryDist target COLOR_HEX_MAP j) := by
  obtain ⟨m', best', heq, i, hi, hb, hdi, hmin, hearly⟩ :=
    nearestLoop_init_spec target COLOR_HEX_MAP (by decide) (by decide)
  refine ⟨best', ?_, i, hi, hb, ?_, ?_⟩
  · simp [get_nearest_color_id, h, heq]
  · intro j hj
    rw [← hdi]
    exact hmin j hj
  · intro j hj
    rw [← hdi]
    exact hearly j hj

/-- Witness for C2 at the concrete input `#008080`. -/
theorem get_nearest_color_id_first_min_witness :
    hex_to_rgb "#008080" = some (0, 128, 128) ∧
    (∃ res, get_nearest_color_id "#008080" = some res ∧
      ∃ i, i < COLOR_HEX_MAP.length ∧ res = (COLOR_HEX_MAP.getD i ("", "")).1 ∧
        (∀ j, j < COLOR_HEX_MAP.length →
          entryDist (0, 128, 128) COLOR_HEX_MAP i ≤ entryDist (0, 128, 128) COLOR_HEX_MAP j) ∧
        (∀ j, j < i → entryDist (0, 128, 128) COLOR_HEX_MAP i < entryDist (0, 128, 128) COLOR_HEX_MAP j)) :=
  ⟨by decide, get_nearest_color_id_first_min "#008080" (0, 128, 128) (by decide)⟩

/-- C4: resolving a null or empty color input and resolving the literal
default `#008080` produce the same result; the code applies Python's
`color_hex or "#008080"` before resolving, so all three inputs reach the
resolver as `#008080`, whose slot is `"10"`. -/
theorem resolve_default_color (access_token : String) (summary : JsonV) (dt : PyDatetime) :
    add_event access_token summary JsonV.null dt
      = add_event access_token summary (JsonV.str "") dt ∧
    add_event access_token summary (JsonV.str "") dt
      = add_event access_token summary (JsonV.str "#008080") dt ∧
    get_nearest_color_id "#008080" = some "10" := by
  have h1 : pyOrJson JsonV.null (JsonV.str "#008080") = JsonV.str "#008080" := rfl
  have h2 : pyOrJson (JsonV.str "") (JsonV.str "#008080") = JsonV.str "#008080" := rfl
  have h3 : pyOrJson (JsonV.str "#008080") (JsonV.str "#008080") = JsonV.str "#008080" := rfl
  refine ⟨?_, ?_, by decide⟩
  · unfold add_event; rw [h1, h2]
  · unfold add_event; rw [h2, h3]

/-- Helper: a payload built by `add_event` carries the summary argument
unchanged. -/
theorem add_event_ok_summary (access_token : String) (summary color_hex : JsonV)
    (dt : PyDatetime) (p : Event)
    (hp : add_event access_token summary color_hex dt = Except.ok p) :
    p.summary = summary := by
  unfold add_event at hp
  split at hp
  · exact Except.noConfusion hp
  · split at hp
    · split at hp
      · injection hp with hp'
        rw [← hp']
      · exact Except.noConfusion hp
    · exact Except.noConfusion hp

/-- C5: every payload `add_event` builds is a point-in-time marker: the
`start` and `end` records are identical, their `dateTime` is the ISO-8601
rendering of the naive input wall-clock time with the America/New_York
offset attached as an explicit designator, and the attached offset is
`-05:00` or `-04:00` (standard or daylight time; the embedding models the
post-2007 tzdata rules, whence the year bound). -/
theorem add_event_point_marker (access_token : String) (summary color_hex : JsonV)
    (dt : PyDatetime) (p : Event)
    (hnaive : dt.tzoffsetMinutes = none) (hyear : 2007 ≤ dt.year)
    (hp : add_event access_token summary color_hex dt = Except.ok p) :
    p.start = p.«end» ∧
    p.start.dateTime = isoNaive dt ++ offsetToString (nyOffsetMinutes dt) ∧
    (offsetToString (nyOffsetMinutes dt) = "-05:00" ∨
      offsetToString (nyOffsetMinutes dt) = "-04:00") ∧
    p.start.timeZone = "America/New_York" := by
  have hloc : EST_localize dt
      = Except.ok { dt with tzoffsetMinutes := some (nyOffsetMinutes dt) } := by
    simp [EST_localize, hnaive]
  have hiso : pyIsoformat { dt with tzoffsetMinutes := some (nyOffsetMinutes dt) }
      = isoNaive dt ++ offsetToString (nyOffsetMinutes dt) := by
    simp [pyIsoformat, isoNaive]
  have hoff : offsetToString (nyOffsetMinutes dt) = "-05:00" ∨
      offsetToString (nyOffsetMinutes dt) = "-04:00" := by
    by_cases hd : isDST_newYork dt
    · right; simp [nyOffsetMinutes, hd]; decide
    · left; simp [nyOffsetMinutes, hd]; decide
  unfold add_event at hp
  rw [hloc] at hp
  simp only at hp
  split at hp
  · split at hp
    · injection hp with hp'
      rw [← hp']
      exact ⟨rfl, hiso, hoff, rfl⟩
    · exact Except.noConfusion hp
  · exact Except.noConfusion hp

/-- Witness for C5 at a concrete build. -/
theorem add_event_point_marker_witness :
    (⟨2024, 1, 2, 9, 0, 0, none⟩ : PyDatetime).tzoffsetMinutes = none ∧
    add_event "tok" (JsonV.str "Meeting") JsonV.null ⟨2024, 1, 2, 9, 0, 0, none⟩
      = Except.ok { summary := JsonV.str "Meeting",
                    start := { dateTime := "2024-01-02T09:00:00-05:00",
                               timeZone := "America/New_York" },
                    «end» := { dateTime := "2024-01-02T09:00:00-05:00",
                               timeZone := "America/New_York" },
                    colorId := "10" } ∧
    (let dt : PyDatetime := ⟨2024, 1, 2, 9, 0, 0, none⟩
     let p : Event := { summary := JsonV.str "Meeting",
                        start := { dateTime := "2024-01-02T09:00:00-05:00",
                                   timeZone := "America/New_York" },
                        «end» := { dateTime := "2024-01-02T09:00:00-05:00",
                                   timeZone := "America/New_York" },
                        colorId := "10" }
     p.start = p.«end» ∧
     p.start.dateTime = isoNaive dt ++ offsetToString (nyOffsetMinutes dt) ∧
     (offsetToString (nyOffsetMinutes dt) = "-05:00" ∨
       offsetToString (nyOffsetMinutes dt) = "-04:00") ∧
     p.start.timeZone = "America/New_York") :=
  ⟨rfl, by rfl,
    add_event_point_marker "tok" (JsonV.str "Meeting") JsonV.null
      ⟨2024, 1, 2, 9, 0, 0, none⟩ _ rfl (by decide) (by rfl)⟩

/-- Helper: any payload recorded in the pipeline's create-event call
carries as summary the title field defaulted through Python's
`gpt_data.get("title") or "No Title"`. -/
theorem createEvent_summary_eq (AUTH_PASSWORD authorization content_type : String)
    (env : PipelineEnv) (o : List (String × JsonV)) (p : Event)
    (hparse : call_gpt_parse env.gptContent = some (JsonV.obj o))
    (hmem : Collab.createEvent p ∈ (process_audio AUTH_PASSWORD authorization content_type env).2) :
    p.summary = pyOrJson (jget o "title") (JsonV.str "No Title") := by
  unfold process_audio at hmem
  split at hmem
  · simp at hmem
  · split at hmem
    · simp at hmem
    · split at hmem
      · simp at hmem
      · simp at hmem
      · rw [hparse] at hmem
        simp only at hmem
        split at hmem
        · simp at hmem
        · split at hmem
          · simp at hmem
          · split at hmem
            · split at hmem
              · simp at hmem
              · split at hmem
                · simp at hmem
                · rename_i payload hadd
                  split at hmem <;>
                  · simp only [List.mem_cons, List.not_mem_nil, or_false] at hmem
                    rcases hmem with h | h | h | h <;>
                      first
                        | exact Collab.noConfusion h
                        | (injection h with h2
                           rw [h2]
                           exact add_event_ok_summary _ _ _ _ _ hadd)
            · simp at hmem

/-- C1 counterexample: with the spec's own example instant
`2024-01-01T14:59:59` (past relative to the reference now
`2024-01-01T15:00:00`), the pipeline does not return null or the soft
outcome: it constructs and posts an event whose start is that past
instant.  The code's only datetime validation is the truthiness check
`if not dt` on line 188 of `main.py`; no comparison against a clock
exists, so the same run occurs whatever the current time is. -/
theorem past_datetime_not_rejected :
    process_audio "defaultpass" "defaultpass" "audio/wav" envSuccess
      = (Outcome.ok (RespBody.success "meeting at three"
            (JsonV.obj gptFieldsSuccess) (JsonV.obj [])),
         [Collab.transcribe, Collab.gpt, Collab.token, Collab.createEvent payloadSuccess]) ∧
    payloadSuccess.start.dateTime = "2024-01-01T14:59:59-05:00" ∧
    (process_audio "defaultpass" "defaultpass" "audio/wav" envSuccess).1
      ≠ Outcome.ok (RespBody.softError "meeting at three" "Invalid or past datetime in input") := by
  refine ⟨rfl, rfl, ?_⟩
  intro hcontra
  rw [show (process_audio "defaultpass" "defaultpass" "audio/wav" envSuccess).1
      = Outcome.ok (RespBody.success "meeting at three"
          (JsonV.obj gptFieldsSuccess) (JsonV.obj [])) from rfl] at hcontra
  injection hcontra with h2
  exact RespBody.noConfusion h2

/-- C1 amended: the pipeline's only datetime validation is the null/empty
(truthiness) check; a non-null extracted ISO datetime is used as-is, with
no comparison against the current time, so the pipeline reaches event
construction and posts an event at that wall-clock instant whether it is
past or future (rejection of past instants is delegated to the extractor
prompt, outside this program). -/
theorem nonnull_datetime_used_without_now_check
    (AUTH_PASSWORD authorization content_type : String) (env : PipelineEnv)
    (text : String) (o : List (String × JsonV)) (s : String) (dt : PyDatetime)
    (tok : String) (created : JsonV)
    (hauth : authorization = AUTH_PASSWORD)
    (hct : content_type ∈ ALLOWED_CONTENT_TYPES)
    (htr : env.transcribeR = TranscribeResult.ok text)
    (hparse : call_gpt_parse env.gptContent = some (JsonV.obj o))
    (hdt : jget o "datetime" = JsonV.str s)
    (hiso : fromisoformat s = some dt)
    (hnaive : dt.tzoffsetMinutes = none)
    (hcolor : jget o "color" = JsonV.null)
    (htok : env.tokenR = Except.ok tok)
    (hcreate : env.createR = Except.ok created) :
    ∃ p : Event,
      process_audio AUTH_PASSWORD authorization content_type env
        = (Outcome.ok (RespBody.success text (JsonV.obj o) created),
           [Collab.transcribe, Collab.gpt, Collab.token, Collab.createEvent p]) ∧
      p.start.dateTime = isoNaive dt ++ offsetToString (nyOffsetMinutes dt) := by
  have hs : s ≠ "" := by
    intro hempty
    rw [hempty] at hiso
    exact Option.noConfusion (hiso.symm.trans (rfl : fromisoformat "" = none)).symm
  have hsf : (s == "") = false := beq_eq_false_iff_ne.mpr hs
  have hteal : get_nearest_color_id "#008080" = some "10" := by decide
  have hloc : EST_localize dt
      = Except.ok { dt with tzoffsetMinutes := some (nyOffsetMinutes dt) } := by
    simp [EST_localize, hnaive]
  have hisoeq : pyIsoformat { dt with tzoffsetMinutes := some (nyOffsetMinutes dt) }
      = isoNaive dt ++ offsetToString (nyOffsetMinutes dt) := by
    simp [pyIsoformat, isoNaive]
  refine ⟨{ summary := pyOrJson (jget o "title") (JsonV.str "No Title"),
            start := { dateTime := isoNaive dt ++ offsetToString (nyOffsetMinutes dt),
                       timeZone := "America/New_York" },
            «end» := { dateTime := isoNaive dt ++ offsetToString (nyOffsetMinutes dt),
                       timeZone := "America/New_York" },
            colorId := "10" }, ?_, rfl⟩
  simp only [process_audio, hauth, htr, hparse, hdt, hiso, htok, hcreate, hcolor,
    add_event, hloc, jfalsy, hsf, pyOrJson, hteal, hisoeq]
  simp [hct, hteal]

/-- Witness for the amended C1: the spec's example past instant flows
through to a posted event. -/
theorem nonnull_datetime_used_without_now_check_witness :
    ∃ p : Event,
      process_audio "defaultpass" "defaultpass" "audio/wav" envSuccess
        = (Outcome.ok (RespBody.success "meeting at three"
              (JsonV.obj gptFieldsSuccess) (JsonV.obj [])),
           [Collab.transcribe, Collab.gpt, Collab.token, Collab.createEvent p]) ∧
      p.start.dateTime = isoNaive ⟨2024, 1, 1, 14, 59, 59, none⟩
        ++ offsetToString (nyOffsetMinutes ⟨2024, 1, 1, 14, 59, 59, none⟩) :=
  nonnull_datetime_used_without_now_check "defaultpass" "defaultpass" "audio/wav"
    envSuccess "meeting at three" gptFieldsSuccess "2024-01-01T14:59:59"
    ⟨2024, 1, 1, 14, 59, 59, none⟩ "tok" (JsonV.obj [])
    rfl (by decide) rfl rfl rfl rfl rfl rfl rfl rfl

/-- C3 counterexample: the soft outcome's error field is the code's
literal "Invalid or past datetime in input", not the claim's literal
"invalid or past datetime". -/
theorem soft_error_literal_differs :
    (process_audio "defaultpass" "defaultpass" "audio/wav" envNullDatetime).1
      = Outcome.ok (RespBody.softError "hello" "Invalid or past datetime in input") ∧
    (process_audio "defaultpass" "defaultpass" "audio/wav" envNullDatetime).2
      = [Collab.transcribe, Collab.gpt] ∧
    ("Invalid or past datetime in input" : String) ≠ "invalid or past datetime" :=
  ⟨rfl, rfl, by decide⟩

/-- C3 amended: a falsy (null, absent or empty) extracted datetime field
short-circuits the pipeline after extraction: no token acquisition and no
event creation happen, and the endpoint returns the 200-level body with
the transcript and the error literal "Invalid or past datetime in input",
whatever the title and color fields hold. -/
theorem null_datetime_short_circuit
    (AUTH_PASSWORD authorization content_type : String) (env : PipelineEnv)
    (text : String) (o : List (String × JsonV))
    (hauth : authorization = AUTH_PASSWORD)
    (hct : content_type ∈ ALLOWED_CONTENT_TYPES)
    (htr : env.transcribeR = TranscribeResult.ok text)
    (hparse : call_gpt_parse env.gptContent = some (JsonV.obj o))
    (hfalsy : jfalsy (jget o "datetime") = true) :
    process_audio AUTH_PASSWORD authorization content_type env
      = (Outcome.ok (RespBody.softError text "Invalid or past datetime in input"),
         [Collab.transcribe, Collab.gpt]) := by
  simp only [process_audio, hauth, htr, hparse, hfalsy]
  simp [hct]

/-- Witness for the amended C3. -/
theorem null_datetime_short_circuit_witness :
    process_audio "defaultpass" "defaultpass" "audio/wav" envNullDatetime
      = (Outcome.ok (RespBody.softError "hello" "Invalid or past datetime in input"),
         [Collab.transcribe, Collab.gpt]) :=
  null_datetime_short_circuit "defaultpass" "defaultpass" "audio/wav" envNullDatetime
    "hello" [("title", JsonV.str "X"), ("color", JsonV.str "#ff0000"), ("datetime", JsonV.null)]
    rfl (by decide) rfl rfl rfl

/-- C6: the summary of every event payload the pipeline sends to the
calendar backend is the literal "No Title" when the extracted title field
is null (or absent, which `dict.get` turns into null) or the empty
string, and is the title unchanged when the title is a non-empty
string. -/
theorem summary_no_title_default (AUTH_PASSWORD authorization content_type : String)
    (env : PipelineEnv) (o : List (String × JsonV)) (p : Event)
    (hparse : call_gpt_parse env.gptContent = some (JsonV.obj o))
    (hmem : Collab.createEvent p
      ∈ (process_audio AUTH_PASSWORD authorization content_type env).2) :
    ((jget o "title" = JsonV.null ∨ jget o "title" = JsonV.str "") →
      p.summary = JsonV.str "No Title") ∧
    (∀ t, jget o "title" = JsonV.str t → t ≠ "" → p.summary = JsonV.str t) := by
  have hs := createEvent_summary_eq AUTH_PASSWORD authorization content_type env o p hparse hmem
  constructor
  · rintro (h | h) <;> rw [hs, h] <;> rfl
  · intro t ht hne
    rw [hs, ht]
    simp [pyOrJson, jfalsy, hne]

/-- Witness for C6: the non-empty title "Meeting" passes through
unchanged. -/
theorem summary_no_title_default_witness :
    (((jget gptFieldsSuccess "title" = JsonV.null ∨
        jget gptFieldsSuccess "title" = JsonV.str "") →
        payloadSuccess.summary = JsonV.str "No Title") ∧
      (∀ t, jget gptFieldsSuccess "title" = JsonV.str t → t ≠ "" →
        payloadSuccess.summary = JsonV.str t)) ∧
    payloadSuccess.summary = JsonV.str "Meeting" := by
  refine ⟨?_, rfl⟩
  exact summary_no_title_default "defaultpass" "defaultpass" "audio/wav" envSuccess
    gptFieldsSuccess payloadSuccess rfl (by
      rw [show (process_audio "defaultpass" "defaultpass" "audio/wav" envSuccess).2
        = [Collab.transcribe, Collab.gpt, Collab.token, Collab.createEvent payloadSuccess]
        from rfl]
      simp)

/-- C7: an Authorization header differing from the configured secret
terminates the request with HTTP 401 and an empty collaborator trace (no
calls attempted), for every declared content type — the credential check
precedes the media-type check; an authorized request with a declared
content type outside the allow-list terminates with HTTP 400 and an empty
trace (no transcription attempted). -/
theorem reject_unauthorized_and_unsupported
    (AUTH_PASSWORD authorization content_type : String) (env : PipelineEnv) :
    (authorization ≠ AUTH_PASSWORD →
      process_audio AUTH_PASSWORD authorization content_type env
        = (Outcome.httpError 401 "Unauthorized", [])) ∧
    (authorization = AUTH_PASSWORD → content_type ∉ ALLOWED_CONTENT_TYPES →
      process_audio AUTH_PASSWORD authorization content_type env
        = (Outcome.httpError 400 "Unsupported file type", [])) := by
  constructor
  · intro h
    simp [process_audio, h]
  · intro h1 h2
    simp [process_audio, h1, h2]

/-- Witness for C7: a wrong credential (even with a bad media type) gives
401; a right credential with declared type video/mp4 gives 400. -/
theorem reject_unauthorized_and_unsupported_witness :
    process_audio "defaultpass" "wrong" "video/mp4" envSuccess
      = (Outcome.httpError 401 "Unauthorized", []) ∧
    process_audio "defaultpass" "defaultpass" "video/mp4" envSuccess
      = (Outcome.httpError 400 "Unsupported file type", []) :=
  ⟨(reject_unauthorized_and_unsupported "defaultpass" "wrong" "video/mp4" envSuccess).1
      (by decide),
    (reject_unauthorized_and_unsupported "defaultpass" "defaultpass" "video/mp4" envSuccess).2
      rfl (by decide)⟩

/-- C8: both distinguished recognizer failures are soft 200-level
outcomes, not exceptions: unrecognized speech yields the body with an
empty transcript and error "Could not understand audio", a recognizer
service error yields the empty transcript and error "Speech Recognition
service error"; in both cases the trace stops at the transcription call —
no extraction, token or calendar call is made. -/
theorem soft_transcription_failures
    (AUTH_PASSWORD authorization content_type : String) (env : PipelineEnv)
    (hauth : authorization = AUTH_PASSWORD)
    (hct : content_type ∈ ALLOWED_CONTENT_TYPES) :
    (env.transcribeR = TranscribeResult.unknownValue →
      process_audio AUTH_PASSWORD authorization content_type env
        = (Outcome.ok (RespBody.softError "" "Could not understand audio"),
           [Collab.transcribe])) ∧
    (env.transcribeR = TranscribeResult.requestError →
      process_audio AUTH_PASSWORD authorization content_type env
        = (Outcome.ok (RespBody.softError "" "Speech Recognition service error"),
           [Collab.transcribe])) := by
  constructor
  · intro h
    simp only [process_audio, hauth, h]
    simp [hct]
  · intro h
    simp only [process_audio, hauth, h]
    simp [hct]

/-- Witness for C8 on both failure kinds. -/
theorem soft_transcription_failures_witness :
    process_audio "defaultpass" "defaultpass" "audio/flac" envUnknownValue
      = (Outcome.ok (RespBody.softError "" "Could not understand audio"),
         [Collab.transcribe]) ∧
    process_audio "defaultpass" "defaultpass" "audio/flac" envRequestError
      = (Outcome.ok (RespBody.softError "" "Speech Recognition service error"),
         [Collab.transcribe]) :=
  ⟨(soft_transcription_failures "defaultpass" "defaultpass" "audio/flac" envUnknownValue
      rfl (by decide)).1 rfl,
    (soft_transcription_failures "defaultpass" "defaultpass" "audio/flac" envRequestError
      rfl (by decide)).2 rfl⟩

/-- Helper: no JSON value starts with a backquote, so the parser fails at
once on such input. -/
theorem parseValue_backquote (fuel : Nat) (cs : List Char) :
    parseValue (fuel + 1) (backquoteChar :: cs) = none := by
  simp only [parseValue]
  rw [if_neg (by decide), if_neg (by decide), if_neg (by decide), if_neg (by decide),
    if_neg (by decide), if_neg (by decide), if_neg (by decide), if_neg (by decide)]

/-- C9: `call_gpt` computes the fence-stripped text but feeds the raw,
unmodified message content to `json.loads` (line 150 of `main.py` parses
`response.choices[0].message.content`, not the stripped local); hence for
every message content wrapped in markdown code fences the parse raises,
even when the stripped text would have parsed. -/
theorem fenced_content_parse_error (content : String) (tl : List Char)
    (h : content.toList = backquoteChar :: backquoteChar :: backquoteChar :: tl) :
    call_gpt_parse content = none := by
  show jsonLoads content = none
  unfold jsonLoads
  rw [h]
  have hws : isJsonWs backquoteChar = false := by decide
  rw [show skipWs (backquoteChar :: backquoteChar :: backquoteChar :: tl)
      = backquoteChar :: backquoteChar :: backquoteChar :: tl from by
    simp [skipWs, hws]]
  rw [show 2 * content.length + 2 = (2 * content.length + 1) + 1 from rfl]
  rw [parseValue_backquote]

/-- Witness for C9: on `fencedContent` the parse fails, although the
computed stripped text parses to a JSON object. -/
theorem fenced_content_parse_error_witness :
    call_gpt_parse fencedContent = none ∧
    strip_fences fencedContent = "\x7b\"title\": null\x7d" ∧
    jsonLoads (strip_fences fencedContent) = some (JsonV.obj [("title", JsonV.null)]) :=
  ⟨fenced_content_parse_error fencedContent ("json\n\x7b\"title\": null\x7d\n```".toList)
      (by decide),
    rfl, rfl⟩

/-- C10: the pipeline is total only for naive extracted datetimes.  When
the extracted ISO string carries an embedded UTC offset,
`datetime.fromisoformat` yields a timezone-aware value and the
`EST.localize` call inside `add_event` raises `ValueError`, so the
request ends in an unhandled exception after the token call, with no
event created; when the parsed datetime is naive, that error branch is
unreachable — `EST.localize` succeeds and attaches the operating-timezone
offset. -/
theorem offset_aware_datetime_raises :
    (∀ (AUTH_PASSWORD authorization content_type : String) (env : PipelineEnv)
        (text : String) (o : List (String × JsonV)) (s : String) (dt : PyDatetime)
        (off : Int) (tok : String),
      authorization = AUTH_PASSWORD →
      content_type ∈ ALLOWED_CONTENT_TYPES →
      env.transcribeR = TranscribeResult.ok text →
      call_gpt_parse env.gptContent = some (JsonV.obj o) →
      jget o "datetime" = JsonV.str s →
      fromisoformat s = some dt →
      dt.tzoffsetMinutes = some off →
      env.tokenR = Except.ok tok →
      process_audio AUTH_PASSWORD authorization content_type env
        = (Outcome.raised "Not naive datetime (tzinfo is already set)",
           [Collab.transcribe, Collab.gpt, Collab.token])) ∧
    (∀ dt : PyDatetime, dt.tzoffsetMinutes = none →
      EST_localize dt = Except.ok { dt with tzoffsetMinutes := some (nyOffsetMinutes dt) }) := by
  constructor
  · intro AUTH_PASSWORD authorization content_type env text o s dt off tok
      hauth hct htr hparse hdt hiso haware htok
    have hs : s ≠ "" := by
      intro hempty
      rw [hempty] at hiso
      exact Option.noConfusion (hiso.symm.trans (rfl : fromisoformat "" = none)).symm
    have hsf : (s == "") = false := beq_eq_false_iff_ne.mpr hs
    have hloc : EST_localize dt
        = Except.error "Not naive datetime (tzinfo is already set)" := by
      simp [EST_localize, haware]
    simp only [process_audio, hauth, htr, hparse, hdt, hiso, htok,
      add_event, hloc, jfalsy, hsf]
    simp [hct]
  · intro dt h
    simp [EST_localize, h]

/-- Witness for C10: an offset-carrying datetime makes the request raise;
a naive one localizes successfully. -/
theorem offset_aware_datetime_raises_witness :
    process_audio "defaultpass" "defaultpass" "audio/wav" envAwareDatetime
      = (Outcome.raised "Not naive datetime (tzinfo is already set)",
         [Collab.transcribe, Collab.gpt, Collab.token]) ∧
    EST_localize ⟨2024, 1, 2, 9, 0, 0, none⟩
      = Except.ok ⟨2024, 1, 2, 9, 0, 0, some (nyOffsetMinutes ⟨2024, 1, 2, 9, 0, 0, none⟩)⟩ :=
  ⟨offset_aware_datetime_raises.1 "defaultpass" "defaultpass" "audio/wav" envAwareDatetime
      "hello"
      [("title", JsonV.null), ("color", JsonV.null),
       ("datetime", JsonV.str "2024-01-01T14:59:59+00:00")]
      "2024-01-01T14:59:59+00:00" ⟨2024, 1, 1, 14, 59, 59, some 0⟩ 0 "tok"
      rfl (by decide) rfl rfl rfl rfl rfl rfl,
    offset_aware_datetime_raises.2 ⟨2024, 1, 2, 9, 0, 0, none⟩ rfl⟩
